import Mathlib

/-!
Shallow embedding of `src/main/python/deep_qa/layers/memory_updaters.py`.

The module defines three Keras 1.x memory-updater layers over a small
registry.  A batch tensor of shape (batch, width) is embedded as a
`List (List Int)` of rows; a single row is a `List Int`.  Python slicing
`x[a:b]` on a row is `(drop a).take (b - a)`; the open-ended `x[a:]` is
`drop a`.  Elementwise tensor `+` follows numpy 1-D broadcasting: equal
lengths add pointwise, a length-1 operand broadcasts, anything else is a
shape error (`none`).  Keras plumbing that the source relies on
(`Layer.get_config`, `DenseLayer.call`, `DenseLayer.get_config`, `from_config`)
is embedded from the Keras 1.x library semantics the source imports.
-/

/-- Python slice `row[a:b]` for `0 ≤ a ≤ b` (numpy column slice of one row). -/
def pySlice (a b : Nat) (row : List Int) : List Int :=
  (row.drop a).take (b - a)

/-- numpy 1-D broadcasting addition: pointwise when lengths agree, a
length-1 operand broadcasts over the other, every other combination is a
shape error. -/
def broadcastAdd (a b : List Int) : Option (List Int) :=
  if a.length = b.length then
    some (List.zipWith (fun u v => u + v) a b)
  else
    match a, b with
    | [u], _ => some (b.map (fun v => u + v))
    | _, [v] => some (a.map (fun u => u + v))
    | _, _ => none

/-- Errors surfaced by construction, registry lookup and deserialization. -/
inductive UpdaterError where
  | configurationError (msg : String)
  | keyError (key : String)
  | typeError (msg : String)
deriving DecidableEq

/-- A value in a serialized layer configuration mapping. -/
inductive ConfigVal where
  | nat (n : Nat)
  | str (s : String)
  | bool (b : Bool)
deriving DecidableEq

/-- A serialized configuration: an ordered string-keyed mapping. -/
abbrev Config := List (String × ConfigVal)

/-- `d[k]` lookup on a configuration mapping. -/
def configLookup (c : Config) (k : String) : Option ConfigVal :=
  (c.find? (fun kv => kv.1 == k)).map (fun kv => kv.2)

/-- Python `d.update(u)`: keys of `d` keep their position but take the
value from `u` when present there; keys only in `u` are appended in order. -/
def dictUpdate (d u : Config) : Config :=
  (d.map (fun kv =>
    match u.find? (fun kv2 => kv2.1 == kv.1) with
    | some kv2 => kv2
    | none => kv))
  ++ u.filter (fun kv2 => ¬ d.any (fun kv => kv.1 == kv2.1))

/-- `split_updater_inputs(x, encoding_dim)` from the source: slices one row
into `x[:encoding_dim]`, `x[encoding_dim:2*encoding_dim]` and the
open-ended `x[2*encoding_dim:]`. -/
def split_updater_inputs (x : List Int) (encoding_dim : Nat) :
    List Int × List Int × List Int :=
  (pySlice 0 encoding_dim x,
   pySlice encoding_dim (2 * encoding_dim) x,
   x.drop (2 * encoding_dim))

/-- Keras 1.x `Layer.get_config`: the base config records the layer name
and the trainable flag (further framework keys round-trip unchanged and
are elided). -/
def layerBaseConfig (name : String) (trainable : Bool) : Config :=
  [("name", ConfigVal.str name), ("trainable", ConfigVal.bool trainable)]

/-- `SumMemoryUpdater`: stores `encoding_dim` and a name; its `mode`
attribute is the constant string `sum` (modelled below as a function). -/
structure SumMemoryUpdater where
  encoding_dim : Nat
  name : String := "sum_memory_updater"
  trainable : Bool := true
deriving DecidableEq

/-- `self.mode = 'sum'` set in `SumMemoryUpdater.__init__`. -/
def SumMemoryUpdater.mode (_ : SumMemoryUpdater) : String := "sum"

/-- `SumMemoryUpdater.__init__`: assigns the fields and performs no
validation of `encoding_dim`; it can never raise. -/
def SumMemoryUpdater.init (encoding_dim : Nat) (name : String := "sum_memory_updater") :
    Except UpdaterError SumMemoryUpdater :=
  Except.ok { encoding_dim := encoding_dim, name := name }

/-- `SumMemoryUpdater.call` on one row: split, discard the question slice,
add memory and knowledge under numpy broadcasting. -/
def SumMemoryUpdater.call (l : SumMemoryUpdater) (x : List Int) : Option (List Int) :=
  let s := split_updater_inputs x l.encoding_dim
  broadcastAdd s.2.1 s.2.2

/-- `SumMemoryUpdater.call` over a batch of rows. -/
def SumMemoryUpdater.callBatch (l : SumMemoryUpdater) (x : List (List Int)) :
    Option (List (List Int)) :=
  x.mapM l.call

/-- `SumMemoryUpdater.get_output_shape_for`: `(input_shape[0], int(input_shape[1] / 3))`. -/
def SumMemoryUpdater.get_output_shape_for (input_shape : Nat × Nat) : Nat × Nat :=
  (input_shape.1, input_shape.2 / 3)

/-- `SumMemoryUpdater.get_config`: `{'encoding_dim': d}` updated with the
base config. -/
def SumMemoryUpdater.get_config (l : SumMemoryUpdater) : Config :=
  dictUpdate [("encoding_dim", ConfigVal.nat l.encoding_dim)]
    (layerBaseConfig l.name l.trainable)

/-- Keras 1.x `Layer.from_config` is `cls(**config)`: `SumMemoryUpdater`
requires `encoding_dim` and accepts `name` and `trainable` keyword
arguments. -/
def SumMemoryUpdater.from_config (c : Config) : Except UpdaterError SumMemoryUpdater :=
  match configLookup c "encoding_dim" with
  | some (ConfigVal.nat d) =>
      Except.ok
        { encoding_dim := d
          name := match configLookup c "name" with
                  | some (ConfigVal.str s) => s
                  | _ => "sum_memory_updater"
          trainable := match configLookup c "trainable" with
                       | some (ConfigVal.bool b) => b
                       | _ => true }
  | _ => Except.error (UpdaterError.typeError "missing required argument encoding_dim")

/-- Keras 1.x `Dense` layer state: `output_dim`, learned weights of shape
(input_dim, output_dim), a bias of width `output_dim`, and an activation
(kept both as a function and as its serialized name). -/
structure DenseLayer where
  output_dim : Nat
  weights : List (List Int)
  bias : List Int
  activation : Int → Int
  activation_name : String
  name : String

/-- Keras 1.x `DenseLayer.call`: `activation(x · W + b)`; output column `j` is
`act (Σ_i x_i * W_{i,j} + b_j)`, so the output always has width
`output_dim`. -/
def DenseLayer.call (d : DenseLayer) (x : List Int) : List Int :=
  (List.range d.output_dim).map (fun j =>
    d.activation
      ((List.zipWith (fun xi row => xi * row.getD j 0) x d.weights).sum + d.bias.getD j 0))

/-- Keras 1.x `DenseLayer.get_config`: base config updated with the dense
keys (`output_dim`, `activation`; further keys such as `init` round-trip
unchanged and are elided). -/
def DenseLayer.get_config (d : DenseLayer) (trainable : Bool) : Config :=
  dictUpdate (layerBaseConfig d.name trainable)
    [("output_dim", ConfigVal.nat d.output_dim),
     ("activation", ConfigVal.str d.activation_name)]

/-- `DenseConcatNoQuestionMemoryUpdater`: a `Dense` subclass whose
`output_dim` is the stored `encoding_dim`. -/
structure DenseConcatNoQuestionMemoryUpdater where
  encoding_dim : Nat
  weights : List (List Int)
  bias : List Int
  activation : Int → Int
  activation_name : String
  name : String := "dense_concat_memory_updater"
  trainable : Bool := true

/-- The underlying `Dense` state of the subclass: `super().__init__`
received `encoding_dim` as `output_dim`. -/
def DenseConcatNoQuestionMemoryUpdater.toDense
    (l : DenseConcatNoQuestionMemoryUpdater) : DenseLayer :=
  { output_dim := l.encoding_dim, weights := l.weights, bias := l.bias,
    activation := l.activation, activation_name := l.activation_name,
    name := l.name }

/-- `DenseConcatNoQuestionMemoryUpdater.__init__`: stores `encoding_dim`,
passes it to `Dense.__init__` as `output_dim`; no validation, never
raises.  The fresh layer is unbuilt, so weights and bias are created
later by `build()` and are empty here. -/
def DenseConcatNoQuestionMemoryUpdater.init (encoding_dim : Nat)
    (name : String := "dense_concat_memory_updater") :
    Except UpdaterError DenseConcatNoQuestionMemoryUpdater :=
  Except.ok
    { encoding_dim := encoding_dim, weights := [], bias := [],
      activation := fun z => z, activation_name := "linear", name := name }

/-- `DenseConcatNoQuestionMemoryUpdater.call`: drops the leading question
slice `x[:, :encoding_dim]` and applies the inherited `DenseLayer.call`. -/
def DenseConcatNoQuestionMemoryUpdater.call
    (l : DenseConcatNoQuestionMemoryUpdater) (x : List Int) : List Int :=
  DenseLayer.call l.toDense (x.drop l.encoding_dim)

/-- Batch version of `DenseConcatNoQuestionMemoryUpdater.call`. -/
def DenseConcatNoQuestionMemoryUpdater.callBatch
    (l : DenseConcatNoQuestionMemoryUpdater) (x : List (List Int)) : List (List Int) :=
  x.map l.call

/-- `DenseConcatNoQuestionMemoryUpdater.get_output_shape_for`:
`(input_shape[0], int(input_shape[1] / 3))`. -/
def DenseConcatNoQuestionMemoryUpdater.get_output_shape_for
    (input_shape : Nat × Nat) : Nat × Nat :=
  (input_shape.1, input_shape.2 / 3)

/-- `DenseConcatNoQuestionMemoryUpdater.get_config`:
`{'encoding_dim': self.output_dim}` updated with the inherited `Dense`
config. -/
def DenseConcatNoQuestionMemoryUpdater.get_config
    (l : DenseConcatNoQuestionMemoryUpdater) : Config :=
  dictUpdate [("encoding_dim", ConfigVal.nat l.toDense.output_dim)]
    (DenseLayer.get_config l.toDense l.trainable)

/-- `Layer.from_config` is `cls(**config)`.  The subclass `__init__`
forwards `encoding_dim` positionally into `Dense.__init__`'s first
parameter `output_dim`; the `output_dim` key that `DenseLayer.get_config`
always emits is also forwarded as a keyword, so Python raises
`TypeError: got multiple values for argument 'output_dim'` whenever both
keys are present. -/
def DenseConcatNoQuestionMemoryUpdater.from_config (c : Config) :
    Except UpdaterError DenseConcatNoQuestionMemoryUpdater :=
  match configLookup c "encoding_dim" with
  | some (ConfigVal.nat d) =>
      match configLookup c "output_dim" with
      | some _ =>
          Except.error (UpdaterError.typeError "multiple values for argument output_dim")
      | none =>
          Except.ok
            { encoding_dim := d, weights := [], bias := [],
              activation := fun z => z, activation_name := "linear",
              name := match configLookup c "name" with
                      | some (ConfigVal.str s) => s
                      | _ => "dense_concat_memory_updater"
              trainable := match configLookup c "trainable" with
                           | some (ConfigVal.bool b) => b
                           | _ => true }
  | _ => Except.error (UpdaterError.typeError "missing required argument encoding_dim")

/-- `DenseConcatMemoryUpdater`: a `Dense` subclass; it overrides neither
`call` nor `get_config`. -/
structure DenseConcatMemoryUpdater where
  encoding_dim : Nat
  weights : List (List Int)
  bias : List Int
  activation : Int → Int
  activation_name : String
  name : String := "dense_concat_memory_updater"
  trainable : Bool := true

/-- The underlying `Dense` state: `super().__init__` received
`encoding_dim` as `output_dim`. -/
def DenseConcatMemoryUpdater.toDense (l : DenseConcatMemoryUpdater) : DenseLayer :=
  { output_dim := l.encoding_dim, weights := l.weights, bias := l.bias,
    activation := l.activation, activation_name := l.activation_name,
    name := l.name }

/-- `DenseConcatMemoryUpdater.__init__`: stores `encoding_dim`, passes it
to `Dense.__init__`; no validation, never raises. -/
def DenseConcatMemoryUpdater.init (encoding_dim : Nat)
    (name : String := "dense_concat_memory_updater") :
    Except UpdaterError DenseConcatMemoryUpdater :=
  Except.ok
    { encoding_dim := encoding_dim, weights := [], bias := [],
      activation := fun z => z, activation_name := "linear", name := name }

/-- `call` is inherited unchanged from `Dense`. -/
def DenseConcatMemoryUpdater.call (l : DenseConcatMemoryUpdater) (x : List Int) : List Int :=
  DenseLayer.call l.toDense x

/-- Batch version of the inherited `DenseLayer.call`. -/
def DenseConcatMemoryUpdater.callBatch (l : DenseConcatMemoryUpdater)
    (x : List (List Int)) : List (List Int) :=
  x.map l.call

/-- `DenseConcatMemoryUpdater.get_output_shape_for`:
`(input_shape[0], int(input_shape[1] / 3))`. -/
def DenseConcatMemoryUpdater.get_output_shape_for (input_shape : Nat × Nat) : Nat × Nat :=
  (input_shape.1, input_shape.2 / 3)

/-- `get_config` is inherited unchanged from `Dense`: the class does not
override it, so no `encoding_dim` key is ever emitted. -/
def DenseConcatMemoryUpdater.get_config (l : DenseConcatMemoryUpdater) : Config :=
  DenseLayer.get_config l.toDense l.trainable

/-- `Layer.from_config` is `cls(**config)`: the subclass `__init__`
requires the positional `encoding_dim`, which the inherited config never
contains; were it present, the `output_dim` key would still collide with
`Dense.__init__`'s first parameter. -/
def DenseConcatMemoryUpdater.from_config (c : Config) :
    Except UpdaterError DenseConcatMemoryUpdater :=
  match configLookup c "encoding_dim" with
  | some (ConfigVal.nat d) =>
      match configLookup c "output_dim" with
      | some _ =>
          Except.error (UpdaterError.typeError "multiple values for argument output_dim")
      | none =>
          Except.ok
            { encoding_dim := d, weights := [], bias := [],
              activation := fun z => z, activation_name := "linear",
              name := match configLookup c "name" with
                      | some (ConfigVal.str s) => s
                      | _ => "dense_concat_memory_updater"
              trainable := match configLookup c "trainable" with
                           | some (ConfigVal.bool b) => b
                           | _ => true }
  | _ => Except.error (UpdaterError.typeError "missing required argument encoding_dim")

/-- The three registered updater classes. -/
inductive UpdaterClass where
  | denseConcat
  | sum
  | denseConcatNoQuestion
deriving DecidableEq

/-- The `updaters` OrderedDict, with its literal insertion order. -/
def updaters : List (String × UpdaterClass) :=
  [("dense_concat", UpdaterClass.denseConcat),
   ("sum", UpdaterClass.sum),
   ("dense_concat_no_question", UpdaterClass.denseConcatNoQuestion)]

/-- `updaters[key]`: dict `__getitem__`, raising `KeyError` on a missing
key. -/
def updatersGet (key : String) : Except UpdaterError UpdaterClass :=
  match updaters.find? (fun kv => kv.1 == key) with
  | some kv => Except.ok kv.2
  | none => Except.error (UpdaterError.keyError key)

/-- Whether an `Except` result is a success. -/
def isOkE {ε α : Type} : Except ε α → Bool
  | Except.ok _ => true
  | Except.error _ => false

/-! ### Helper lemmas -/

/-- Over the `Option` monad, `mapM` of a pointwise-successful function
collects the pointwise results. -/
theorem mapM_eq_some_map {α β : Type} (f : α → Option β) (g : α → β) :
    ∀ x : List α, (∀ a ∈ x, f a = some (g a)) → x.mapM f = some (x.map g)
  | [], _ => by rw [← List.mapM'_eq_mapM]; rfl
  | a :: t, h => by
      have ha : f a = some (g a) := h a (by simp)
      have ht : t.mapM f = some (t.map g) :=
        mapM_eq_some_map f g t (fun b hb => h b (by simp [hb]))
      rw [← List.mapM'_eq_mapM] at ht ⊢
      simp [List.mapM', ha, ht]

/-- On a row of width exactly `3 * D`, the open-ended third slice
`x[2*D:]` coincides with the bounded slice `x[2*D:3*D]`. -/
theorem drop_two_eq_pySlice (D : Nat) (x : List Int) (h : x.length = 3 * D) :
    x.drop (2 * D) = pySlice (2 * D) (3 * D) x := by
  unfold pySlice
  rw [List.take_of_length_le]
  simp [h]

/-- Width of the middle slice `x[D:2*D]` on a row of width `3 * D`. -/
theorem length_pySlice_mid (D : Nat) (x : List Int) (h : x.length = 3 * D) :
    (pySlice D (2 * D) x).length = D := by
  simp [pySlice, h]
  omega

/-- Width of the third slice `x[2*D:3*D]` on a row of width `3 * D`. -/
theorem length_pySlice_last (D : Nat) (x : List Int) (h : x.length = 3 * D) :
    (pySlice (2 * D) (3 * D) x).length = D := by
  simp [pySlice, h]
  omega

/-- Width of the first slice `x[:D]` on a row of width `3 * D`. -/
theorem length_pySlice_first (D : Nat) (x : List Int) (h : x.length = 3 * D) :
    (pySlice 0 D x).length = D := by
  simp [pySlice, h]
  omega

/-- On a row of width exactly `3 * D`, `SumMemoryUpdater.call` succeeds and
returns the pointwise sum of the middle and last `D`-wide slices. -/
theorem sum_call_row (l : SumMemoryUpdater) (x : List Int)
    (h : x.length = 3 * l.encoding_dim) :
    l.call x =
      some (List.zipWith (fun u v => u + v)
        (pySlice l.encoding_dim (2 * l.encoding_dim) x)
        (pySlice (2 * l.encoding_dim) (3 * l.encoding_dim) x)) := by
  have h3 := drop_two_eq_pySlice l.encoding_dim x h
  have hm := length_pySlice_mid l.encoding_dim x h
  have hk := length_pySlice_last l.encoding_dim x h
  simp only [SumMemoryUpdater.call, split_updater_inputs]
  rw [h3]
  simp [broadcastAdd, hm, hk]

/-! ### C1 -/

/-- C1: for every `D > 0` and every batch of rows of width exactly `3*D`,
the sum updater's batched output is, element for element, the pointwise
sum of the second and third `D`-wide column slices
`input[:, D:2*D] + input[:, 2*D:3*D]`. -/
theorem sum_updater_batch_output (D : Nat) (nm : String) (tr : Bool)
    (x : List (List Int)) (hD : 0 < D) (hx : ∀ row ∈ x, row.length = 3 * D) :
    SumMemoryUpdater.callBatch ⟨D, nm, tr⟩ x =
      some (x.map (fun row =>
        List.zipWith (fun u v => u + v)
          (pySlice D (2 * D) row) (pySlice (2 * D) (3 * D) row))) := by
  apply mapM_eq_some_map
  intro row hrow
  exact sum_call_row ⟨D, nm, tr⟩ row (hx row hrow)

/-- Witness for C1 at `D = 1` on the batch `[[1,2,3],[4,5,6]]`. -/
theorem sum_updater_batch_output_witness :
    0 < 1 ∧ (∀ row ∈ [[(1 : Int), 2, 3], [4, 5, 6]], List.length row = 3 * 1) ∧
    SumMemoryUpdater.callBatch ⟨1, "sum_memory_updater", true⟩
        [[(1 : Int), 2, 3], [4, 5, 6]] =
      some ([[(1 : Int), 2, 3], [4, 5, 6]].map (fun row =>
        List.zipWith (fun u v => u + v) (pySlice 1 (2 * 1) row) (pySlice (2 * 1) (3 * 1) row))) :=
  ⟨by decide, by decide,
    sum_updater_batch_output 1 "sum_memory_updater" true _ (by decide) (by decide)⟩

/-! ### C5 -/

/-- C5: on a row of width exactly `3*D` with `D > 0`, the splitter returns
the three `D`-wide slices taken from column ranges `[0,D)`, `[D,2*D)` and
`[2*D,3*D)`, in that order. -/
theorem split_updater_inputs_spec (D : Nat) (x : List Int)
    (hD : 0 < D) (h : x.length = 3 * D) :
    split_updater_inputs x D =
        (pySlice 0 D x, pySlice D (2 * D) x, pySlice (2 * D) (3 * D) x) ∧
      (pySlice 0 D x).length = D ∧
      (pySlice D (2 * D) x).length = D ∧
      (pySlice (2 * D) (3 * D) x).length = D := by
  refine ⟨?_, length_pySlice_first D x h, length_pySlice_mid D x h,
    length_pySlice_last D x h⟩
  unfold split_updater_inputs
  rw [drop_two_eq_pySlice D x h]

/-- Witness for C5 at `D = 1` on the row `[1,2,3]`. -/
theorem split_updater_inputs_spec_witness :
    0 < 1 ∧ List.length [(1 : Int), 2, 3] = 3 * 1 ∧
    (split_updater_inputs [(1 : Int), 2, 3] 1 =
        (pySlice 0 1 [(1 : Int), 2, 3], pySlice 1 (2 * 1) [(1 : Int), 2, 3],
         pySlice (2 * 1) (3 * 1) [(1 : Int), 2, 3]) ∧
      (pySlice 0 1 [(1 : Int), 2, 3]).length = 1 ∧
      (pySlice 1 (2 * 1) [(1 : Int), 2, 3]).length = 1 ∧
      (pySlice (2 * 1) (3 * 1) [(1 : Int), 2, 3]).length = 1) :=
  ⟨by decide, by decide, split_updater_inputs_spec 1 _ (by decide) (by decide)⟩

/-- numpy broadcasting addition of 1-D tensors is commutative. -/
theorem broadcastAdd_comm (a b : List Int) : broadcastAdd a b = broadcastAdd b a := by
  by_cases hab : a.length = b.length
  · simp only [broadcastAdd, if_pos hab, if_pos hab.symm]
    exact congrArg some (List.zipWith_comm_of_comm _ (fun u v => Int.add_comm u v) a b)
  · have hba : ¬ b.length = a.length := fun hh => hab hh.symm
    simp only [broadcastAdd, if_neg hab, if_neg hba]
    rcases a with _ | ⟨u, _ | ⟨u2, ta⟩⟩ <;> rcases b with _ | ⟨v, _ | ⟨v2, tb⟩⟩ <;>
      simp [Int.add_comm]

/-- The width of a successful broadcast addition: the operand widths agree
and give the result width, or a width-1 operand broadcast to the other
operand's width. -/
theorem broadcastAdd_some_length (a b c : List Int) (h : broadcastAdd a b = some c) :
    (a.length = b.length ∧ c.length = b.length) ∨
    (a.length = 1 ∧ c.length = b.length) ∨
    (b.length = 1 ∧ c.length = a.length) := by
  by_cases hab : a.length = b.length
  · simp only [broadcastAdd, if_pos hab, Option.some.injEq] at h
    exact Or.inl ⟨hab, by rw [← h]; simp [hab]⟩
  · simp only [broadcastAdd, if_neg hab] at h
    rcases a with _ | ⟨u, _ | ⟨u2, ta⟩⟩
    · rcases b with _ | ⟨v, _ | ⟨v2, tb⟩⟩
      · exact absurd rfl hab
      · simp only [Option.some.injEq] at h
        exact Or.inr (Or.inr ⟨rfl, by rw [← h]; rfl⟩)
      · simp at h
    · simp only [Option.some.injEq] at h
      exact Or.inr (Or.inl ⟨rfl, by rw [← h]; simp⟩)
    · rcases b with _ | ⟨v, _ | ⟨v2, tb⟩⟩
      · simp at h
      · simp only [Option.some.injEq] at h
        exact Or.inr (Or.inr ⟨rfl, by rw [← h]; simp⟩)
      · simp at h

/-! ### C4 -/

/-- C4: for every `D > 0` and batch of `B` rows of width exactly `3*D`,
each of the three updaters produces outputs of trailing width exactly `D`,
and each updater's `get_output_shape_for` on the input shape `(B, 3*D)`
equals the shape `(B, D)` of the computed output. -/
theorem updater_output_widths (D B : Nat) (nm an : String) (tr : Bool)
    (w : List (List Int)) (b : List Int) (act : Int → Int)
    (x : List (List Int)) (hD : 0 < D) (hB : x.length = B)
    (hx : ∀ row ∈ x, row.length = 3 * D) :
    (∃ ys, SumMemoryUpdater.callBatch ⟨D, nm, tr⟩ x = some ys ∧
        ys.length = B ∧ ∀ y ∈ ys, y.length = D) ∧
    SumMemoryUpdater.get_output_shape_for (B, 3 * D) = (B, D) ∧
    ((DenseConcatNoQuestionMemoryUpdater.callBatch ⟨D, w, b, act, an, nm, tr⟩ x).length = B ∧
      (∀ y ∈ DenseConcatNoQuestionMemoryUpdater.callBatch ⟨D, w, b, act, an, nm, tr⟩ x,
        y.length = D)) ∧
    DenseConcatNoQuestionMemoryUpdater.get_output_shape_for (B, 3 * D) = (B, D) ∧
    ((DenseConcatMemoryUpdater.callBatch ⟨D, w, b, act, an, nm, tr⟩ x).length = B ∧
      (∀ y ∈ DenseConcatMemoryUpdater.callBatch ⟨D, w, b, act, an, nm, tr⟩ x,
        y.length = D)) ∧
    DenseConcatMemoryUpdater.get_output_shape_for (B, 3 * D) = (B, D) := by
  have hdiv : 3 * D / 3 = D := by omega
  refine ⟨?_, ?_, ⟨?_, ?_⟩, ?_, ⟨?_, ?_⟩, ?_⟩
  · refine ⟨x.map (fun row => List.zipWith (fun u v => u + v)
      (pySlice D (2 * D) row) (pySlice (2 * D) (3 * D) row)), ?_, ?_, ?_⟩
    · exact mapM_eq_some_map _ _ x (fun row hrow => sum_call_row ⟨D, nm, tr⟩ row (hx row hrow))
    · simp [hB]
    · intro y hy
      simp only [List.mem_map] at hy
      obtain ⟨row, hrow, rfl⟩ := hy
      rw [List.length_zipWith, length_pySlice_mid D row (hx row hrow),
        length_pySlice_last D row (hx row hrow)]
      omega
  · simp [SumMemoryUpdater.get_output_shape_for, hdiv]
  · simp [DenseConcatNoQuestionMemoryUpdater.callBatch, hB]
  · intro y hy
    simp only [DenseConcatNoQuestionMemoryUpdater.callBatch, List.mem_map] at hy
    obtain ⟨row, hrow, rfl⟩ := hy
    simp [DenseConcatNoQuestionMemoryUpdater.call, DenseLayer.call,
      DenseConcatNoQuestionMemoryUpdater.toDense]
  · simp [DenseConcatNoQuestionMemoryUpdater.get_output_shape_for, hdiv]
  · simp [DenseConcatMemoryUpdater.callBatch, hB]
  · intro y hy
    simp only [DenseConcatMemoryUpdater.callBatch, List.mem_map] at hy
    obtain ⟨row, hrow, rfl⟩ := hy
    simp [DenseConcatMemoryUpdater.call, DenseLayer.call, DenseConcatMemoryUpdater.toDense]
  · simp [DenseConcatMemoryUpdater.get_output_shape_for, hdiv]

/-- Witness for C4 at `D = 1`, `B = 1` on the batch `[[1,2,3]]`. -/
theorem updater_output_widths_witness :
    0 < 1 ∧ List.length [[(1 : Int), 2, 3]] = 1 ∧
    (∀ row ∈ [[(1 : Int), 2, 3]], List.length row = 3 * 1) ∧
    ((∃ ys, SumMemoryUpdater.callBatch ⟨1, "sum_memory_updater", true⟩
          [[(1 : Int), 2, 3]] = some ys ∧
        ys.length = 1 ∧ ∀ y ∈ ys, y.length = 1) ∧
    SumMemoryUpdater.get_output_shape_for (1, 3 * 1) = (1, 1) ∧
    ((DenseConcatNoQuestionMemoryUpdater.callBatch
        ⟨1, [[1], [1]], [0], fun z => z, "linear", "dense_concat_memory_updater", true⟩
        [[(1 : Int), 2, 3]]).length = 1 ∧
      (∀ y ∈ DenseConcatNoQuestionMemoryUpdater.callBatch
        ⟨1, [[1], [1]], [0], fun z => z, "linear", "dense_concat_memory_updater", true⟩
        [[(1 : Int), 2, 3]], y.length = 1)) ∧
    DenseConcatNoQuestionMemoryUpdater.get_output_shape_for (1, 3 * 1) = (1, 1) ∧
    ((DenseConcatMemoryUpdater.callBatch
        ⟨1, [[1], [1]], [0], fun z => z, "linear", "dense_concat_memory_updater", true⟩
        [[(1 : Int), 2, 3]]).length = 1 ∧
      (∀ y ∈ DenseConcatMemoryUpdater.callBatch
        ⟨1, [[1], [1]], [0], fun z => z, "linear", "dense_concat_memory_updater", true⟩
        [[(1 : Int), 2, 3]], y.length = 1)) ∧
    DenseConcatMemoryUpdater.get_output_shape_for (1, 3 * 1) = (1, 1)) :=
  ⟨by decide, by decide, by decide,
    updater_output_widths 1 1 "sum_memory_updater" "linear" true
      [[1], [1]] [0] (fun z => z) [[(1 : Int), 2, 3]] (by decide) (by decide) (by decide)⟩

/-! ### C7 -/

/-- C7: the dense-concat-no-question updater with fixed learned parameters
gives identical outputs on two width-`3*D` inputs that differ only in
their first `D` columns (the discarded question slice). -/
theorem dcnq_question_invariance (D : Nat) (l : DenseConcatNoQuestionMemoryUpdater)
    (x y : List Int) (hD : 0 < D) (hl : l.encoding_dim = D)
    (hx : x.length = 3 * D) (hy : y.length = 3 * D) (hxy : x.drop D = y.drop D) :
    l.call x = l.call y := by
  unfold DenseConcatNoQuestionMemoryUpdater.call
  rw [hl, hxy]

/-- Witness for C7 at `D = 1` on the rows `[5,2,3]` and `[7,2,3]`. -/
theorem dcnq_question_invariance_witness :
    0 < 1 ∧
    (DenseConcatNoQuestionMemoryUpdater.encoding_dim
      ⟨1, [[1], [1]], [0], fun z => z, "linear", "dense_concat_memory_updater", true⟩ = 1) ∧
    List.length [(5 : Int), 2, 3] = 3 * 1 ∧ List.length [(7 : Int), 2, 3] = 3 * 1 ∧
    [(5 : Int), 2, 3].drop 1 = [(7 : Int), 2, 3].drop 1 ∧
    DenseConcatNoQuestionMemoryUpdater.call
        ⟨1, [[1], [1]], [0], fun z => z, "linear", "dense_concat_memory_updater", true⟩
        [(5 : Int), 2, 3] =
      DenseConcatNoQuestionMemoryUpdater.call
        ⟨1, [[1], [1]], [0], fun z => z, "linear", "dense_concat_memory_updater", true⟩
        [(7 : Int), 2, 3] :=
  ⟨by decide, rfl, by decide, by decide, by decide,
    dcnq_question_invariance 1 _ _ _ (by decide) rfl (by decide) (by decide) (by decide)⟩

/-! ### C8 -/

/-- C8: exchanging the memory slice (columns `[D,2*D)`) with the knowledge
slice (columns `[2*D,3*D)`) of a width-`3*D` input leaves the sum
updater's output unchanged. -/
theorem sum_updater_slice_swap (D : Nat) (nm : String) (tr : Bool) (x : List Int)
    (hD : 0 < D) (h : x.length = 3 * D) :
    SumMemoryUpdater.call ⟨D, nm, tr⟩ x =
      SumMemoryUpdater.call ⟨D, nm, tr⟩
        (pySlice 0 D x ++ (pySlice (2 * D) (3 * D) x ++ pySlice D (2 * D) x)) := by
  have hq := length_pySlice_first D x h
  have hm := length_pySlice_mid D x h
  have hk := length_pySlice_last D x h
  have h3 := drop_two_eq_pySlice D x h
  simp only [SumMemoryUpdater.call, split_updater_inputs]
  rw [h3]
  have hdropD :
      (pySlice 0 D x ++ (pySlice (2 * D) (3 * D) x ++ pySlice D (2 * D) x)).drop D =
        pySlice (2 * D) (3 * D) x ++ pySlice D (2 * D) x := List.drop_left' hq
  have hmid :
      pySlice D (2 * D) (pySlice 0 D x ++ (pySlice (2 * D) (3 * D) x ++ pySlice D (2 * D) x)) =
        pySlice (2 * D) (3 * D) x := by
    show ((pySlice 0 D x ++ (pySlice (2 * D) (3 * D) x ++ pySlice D (2 * D) x)).drop D).take
        (2 * D - D) = _
    rw [hdropD]
    have h2 : 2 * D - D = D := by omega
    rw [h2]
    exact List.take_left' hk
  have hlast :
      (pySlice 0 D x ++ (pySlice (2 * D) (3 * D) x ++ pySlice D (2 * D) x)).drop (2 * D) =
        pySlice D (2 * D) x := by
    have hdd :
        (pySlice 0 D x ++ (pySlice (2 * D) (3 * D) x ++ pySlice D (2 * D) x)).drop (D + D) =
          pySlice D (2 * D) x := by
      rw [← List.drop_drop, hdropD]
      exact List.drop_left' hk
    convert hdd using 2
    omega
  rw [hmid, hlast]
  exact broadcastAdd_comm _ _

/-- Witness for C8 at `D = 1` on the row `[1,2,3]`. -/
theorem sum_updater_slice_swap_witness :
    0 < 1 ∧ List.length [(1 : Int), 2, 3] = 3 * 1 ∧
    SumMemoryUpdater.call ⟨1, "sum_memory_updater", true⟩ [(1 : Int), 2, 3] =
      SumMemoryUpdater.call ⟨1, "sum_memory_updater", true⟩
        (pySlice 0 1 [(1 : Int), 2, 3] ++
          (pySlice (2 * 1) (3 * 1) [(1 : Int), 2, 3] ++ pySlice 1 (2 * 1) [(1 : Int), 2, 3])) :=
  ⟨by decide, by decide,
    sum_updater_slice_swap 1 "sum_memory_updater" true _ (by decide) (by decide)⟩

/-! ### C9 -/

/-- C9: with `D = 2` and input `[1,2,3,4,5,6]`, the sum updater returns
`[8,10]`; the dense-concat-no-question updater with identity activation,
weights `[[1,0],[0,1],[0,0],[0,0]]` and bias `[0,0]` first reduces the
input to the concatenation `[3,4,5,6]` and returns `[3,4]`. -/
theorem concrete_scenario_values :
    SumMemoryUpdater.call ⟨2, "sum_memory_updater", true⟩ [1, 2, 3, 4, 5, 6] =
        some [8, 10] ∧
    [(1 : Int), 2, 3, 4, 5, 6].drop 2 = [3, 4, 5, 6] ∧
    DenseConcatNoQuestionMemoryUpdater.call
        ⟨2, [[1, 0], [0, 1], [0, 0], [0, 0]], [0, 0], fun z => z, "linear",
          "dense_concat_memory_updater", true⟩ [1, 2, 3, 4, 5, 6] = [3, 4] := by
  exact ⟨by decide, by decide, by decide⟩

/-! ### C10 -/

/-- C10: on an input of width `W ≥ 2*D` the splitter's third slice spans
columns `[2*D, W)` and has width `W - 2*D`; when `W > 3*D` that width is
not `D`, and any output the sum updater actually produces has width
`W - 2*D`, which differs from the `W / 3` width reported by its shape
inference. -/
theorem third_slice_open_width (D W B : Nat) (nm : String) (tr : Bool) (x : List Int)
    (hD : 0 < D) (hx : x.length = W) (hW : 2 * D ≤ W) :
    (split_updater_inputs x D).2.2.length = W - 2 * D ∧
    (3 * D < W →
      W - 2 * D ≠ D ∧
      ∀ out, SumMemoryUpdater.call ⟨D, nm, tr⟩ x = some out →
        out.length = W - 2 * D ∧
        out.length ≠ (SumMemoryUpdater.get_output_shape_for (B, W)).2) := by
  constructor
  · simp [split_updater_inputs, hx]
  · intro h3
    refine ⟨by omega, ?_⟩
    intro out hout
    have hmem : (pySlice D (2 * D) x).length = D := by
      simp [pySlice, hx]
      omega
    have hkn : (x.drop (2 * D)).length = W - 2 * D := by simp [hx]
    simp only [SumMemoryUpdater.call, split_updater_inputs] at hout
    have hcase := broadcastAdd_some_length _ _ _ hout
    rw [hmem, hkn] at hcase
    have hlen : out.length = W - 2 * D := by
      rcases hcase with ⟨h1, h2⟩ | ⟨h1, h2⟩ | ⟨h1, h2⟩ <;> omega
    refine ⟨hlen, ?_⟩
    simp only [SumMemoryUpdater.get_output_shape_for]
    rw [hlen]
    omega

/-- Witness for C10 at `D = 1`, `W = 4` on the row `[1,2,3,4]`. -/
theorem third_slice_open_width_witness :
    0 < 1 ∧ List.length [(1 : Int), 2, 3, 4] = 4 ∧ 2 * 1 ≤ 4 ∧
    ((split_updater_inputs [(1 : Int), 2, 3, 4] 1).2.2.length = 4 - 2 * 1 ∧
    (3 * 1 < 4 →
      4 - 2 * 1 ≠ 1 ∧
      ∀ out, SumMemoryUpdater.call ⟨1, "sum_memory_updater", true⟩ [(1 : Int), 2, 3, 4] =
          some out →
        out.length = 4 - 2 * 1 ∧
        out.length ≠ (SumMemoryUpdater.get_output_shape_for (1, 4)).2)) :=
  ⟨by decide, by decide, by decide,
    third_slice_open_width 1 4 1 "sum_memory_updater" true _ (by decide) (by decide)
      (by decide)⟩

/-! ### C6 -/

/-- C6: the registry holds exactly the keys `dense_concat`, `sum`,
`dense_concat_no_question` in that insertion order, maps each to its
updater class, and lookup of any other string fails with a `KeyError`. -/
theorem updaters_registry_spec :
    updaters.map Prod.fst = ["dense_concat", "sum", "dense_concat_no_question"] ∧
    updatersGet "dense_concat" = Except.ok UpdaterClass.denseConcat ∧
    updatersGet "sum" = Except.ok UpdaterClass.sum ∧
    updatersGet "dense_concat_no_question" = Except.ok UpdaterClass.denseConcatNoQuestion ∧
    ∀ k, k ∉ ["dense_concat", "sum", "dense_concat_no_question"] →
      updatersGet k = Except.error (UpdaterError.keyError k) := by
  refine ⟨by decide, rfl, rfl, rfl, ?_⟩
  intro k hk
  simp only [List.mem_cons, List.not_mem_nil, or_false, not_or] at hk
  obtain ⟨h1, h2, h3⟩ := hk
  have e1 : ("dense_concat" == k) = false := beq_eq_false_iff_ne.mpr (Ne.symm h1)
  have e2 : ("sum" == k) = false := beq_eq_false_iff_ne.mpr (Ne.symm h2)
  have e3 : ("dense_concat_no_question" == k) = false :=
    beq_eq_false_iff_ne.mpr (Ne.symm h3)
  simp [updatersGet, updaters, List.find?, e1, e2, e3]

/-- Witness for C6: lookup of the unregistered key `foo` fails. -/
theorem updaters_registry_spec_witness :
    "foo" ∉ ["dense_concat", "sum", "dense_concat_no_question"] ∧
    updatersGet "foo" = Except.error (UpdaterError.keyError "foo") :=
  ⟨by decide, updaters_registry_spec.2.2.2.2 "foo" (by decide)⟩

/-! ### C3 -/

/-- C3 is false on the code: constructing each updater with the
non-positive `encoding_dim = 0` succeeds; no `ConfigurationError` (nor any
other error) is raised at construction time. -/
theorem construction_unvalidated_counterexample :
    SumMemoryUpdater.init 0 = Except.ok
      { encoding_dim := 0, name := "sum_memory_updater", trainable := true } ∧
    isOkE (DenseConcatNoQuestionMemoryUpdater.init 0) = true ∧
    isOkE (DenseConcatMemoryUpdater.init 0) = true :=
  ⟨rfl, rfl, rfl⟩

/-- C3 amended: construction performs no validation of `encoding_dim`:
every value, the non-positive ones included, is accepted and stored as
given, and construction never raises. -/
theorem construction_accepts_any_encoding_dim (d : Nat) (nm : String) :
    SumMemoryUpdater.init d nm =
        Except.ok { encoding_dim := d, name := nm, trainable := true } ∧
    (∃ l, DenseConcatNoQuestionMemoryUpdater.init d nm = Except.ok l ∧
      l.encoding_dim = d) ∧
    (∃ l, DenseConcatMemoryUpdater.init d nm = Except.ok l ∧ l.encoding_dim = d) :=
  ⟨rfl, ⟨_, rfl, rfl⟩, ⟨_, rfl, rfl⟩⟩

/-! ### C2 -/

/-- C2 is false on the code: `DenseConcatMemoryUpdater` inherits
`Dense.get_config` unchanged, so the serialized configuration of this
concrete dense_concat updater has no `encoding_dim` key, and
deserializing it fails instead of reconstructing the configuration. -/
theorem config_roundtrip_counterexample :
    configLookup
        (DenseConcatMemoryUpdater.get_config
          { encoding_dim := 2, weights := [], bias := [], activation := fun z => z,
            activation_name := "linear", name := "dense_concat_memory_updater",
            trainable := true }) "encoding_dim" = none ∧
    isOkE (DenseConcatMemoryUpdater.from_config
        (DenseConcatMemoryUpdater.get_config
          { encoding_dim := 2, weights := [], bias := [], activation := fun z => z,
            activation_name := "linear", name := "dense_concat_memory_updater",
            trainable := true })) = false :=
  ⟨rfl, rfl⟩

/-- C2 amended: the sum variant round-trips
(`from_config (get_config l) = ok l`) and its configuration contains
`encoding_dim`; the dense_concat_no_question configuration also contains
`encoding_dim` but deserializing it fails on the duplicated `output_dim`
constructor argument; the dense_concat configuration lacks `encoding_dim`
entirely and deserializing it fails, so the round-trip holds only for the
sum variant. -/
theorem config_roundtrip_amended (l1 : SumMemoryUpdater)
    (l2 : DenseConcatNoQuestionMemoryUpdater) (l3 : DenseConcatMemoryUpdater) :
    SumMemoryUpdater.from_config l1.get_config = Except.ok l1 ∧
    configLookup l1.get_config "encoding_dim" = some (ConfigVal.nat l1.encoding_dim) ∧
    configLookup l2.get_config "encoding_dim" = some (ConfigVal.nat l2.encoding_dim) ∧
    isOkE (DenseConcatNoQuestionMemoryUpdater.from_config l2.get_config) = false ∧
    configLookup l3.get_config "encoding_dim" = none ∧
    isOkE (DenseConcatMemoryUpdater.from_config l3.get_config) = false :=
  ⟨rfl, rfl, rfl, rfl, rfl, rfl⟩
